import Mathlib

set_option linter.unusedVariables false

set_option linter.unnecessarySeqFocus false

/-!
Shallow embedding of the video-summarization pipeline (`a.py`).

Python effects are modelled by a state monad over `World` (the set of
temporary files on disk plus a chronological event trace) together with an
`Env` of outcomes of the external collaborators (HTTP fetch, video decoding,
audio transcoding, generative-model endpoint).  Python exceptions are the
`Except PyErr` layer; `try/except/finally` become explicit combinators.
Byte payloads (PNG frames, MP3 audio) are opaque strings; the base64
re-encoding steps of the source are injective recodings folded into those
opaque payloads.
-/

/-- Temporary files are identified by the order of their creation. -/
abbrev FileId := Nat

/-- Python exception values, classified by the classes the source catches. -/
inductive PyErr where
  | requestError (msg : String)
  | typeError (msg : String)
  | attributeError (msg : String)
  | ioError (msg : String)
  | apiError (msg : String)
deriving DecidableEq

/-- `str(e)` of a Python exception, as interpolated by the source f-strings. -/
def PyErr.str : PyErr → String
  | .requestError m => m
  | .typeError m => m
  | .attributeError m => m
  | .ioError m => m
  | .apiError m => m

/-- A Python number: an `int` or a `float` (floats modelled as rationals). -/
inductive PyNum where
  | int (n : Int)
  | float (q : ℚ)
deriving DecidableEq

/-- Python `float(x)` on a number. -/
def pyFloat : PyNum → PyNum
  | .int n => .float n
  | .float q => .float q

/-- Python `int(x)` on a float: truncation toward zero. -/
def pyIntOfRat (q : ℚ) : Int := if 0 ≤ q then ⌊q⌋ else ⌈q⌉

/-- Number of elements of Python `range(start, stop, step)` (integer step). -/
def rangeLen (start stop step : Int) : Nat :=
  if 0 < step then ((stop - start + step - 1) / step).toNat
  else if step < 0 then ((start - stop - step - 1) / (-step)).toNat
  else 0

/-- The elements of Python `range(start, stop, step)` for an integer step. -/
def rangeList (start stop step : Int) : List Int :=
  (List.range (rangeLen start stop step)).map (fun i => start + step * (i : Int))

/-- Python `range(start, stop, step)`: accepts only integer arguments; a
`float` step (even one with integral value) raises `TypeError`, and a zero
step raises as well. -/
def pyRange (start stop : Int) : PyNum → Except PyErr (List Int)
  | .int k =>
      if k = 0 then .error (.typeError "range arg 3 must not be zero")
      else .ok (rangeList start stop k)
  | .float _ => .error (.typeError "float object cannot be interpreted as an integer")

/-- One part of the multimodal request (`contents` list entries). -/
inductive ReqPart where
  | text (s : String)
  | inlineImage (data : String)
  | inlineAudio (data : String)
deriving DecidableEq

/-- Observable effects, recorded chronologically. -/
inductive Event where
  | fileCreate (f : FileId)
  | fileRemove (f : FileId)
  | httpPost (messageText : String)
  | countTokensCall (contents : List ReqPart)
  | generateCall (contents : List ReqPart)
deriving DecidableEq

/-- The mutable world: temp files currently on disk, the next fresh file id,
and the trace of effects so far. -/
structure World where
  files : List FileId
  nextId : Nat
  events : List Event
deriving DecidableEq

/-- The world at process start: no temp files, empty trace. -/
def World.init : World := ⟨[], 0, []⟩

/-- Effect of `tempfile.NamedTemporaryFile(delete=False)`: one fresh file. -/
def pushFile (w : World) : World :=
  ⟨w.files ++ [w.nextId], w.nextId + 1, w.events ++ [Event.fileCreate w.nextId]⟩

/-- The effect monad: state `World`, exceptions `PyErr`. -/
abbrev M (α : Type) : Type := World → Except PyErr α × World

def M.pure {α : Type} (a : α) : M α := fun w => (Except.ok a, w)

def M.bind {α β : Type} (x : M α) (f : α → M β) : M β := fun w =>
  match x w with
  | (Except.ok a, w1) => f a w1
  | (Except.error e, w1) => (Except.error e, w1)

instance : Monad M where
  pure := M.pure
  bind := M.bind

/-- Raising a Python exception. -/
def M.raise {α : Type} (e : PyErr) : M α := fun w => (Except.error e, w)

/-- A call whose outcome is fixed by the environment and touches no state. -/
def liftE {α : Type} (x : Except PyErr α) : M α := fun w => (x, w)

/-- Record an observable effect. -/
def emit (ev : Event) : M Unit := fun w =>
  (Except.ok (), { w with events := w.events ++ [ev] })

/-- `tempfile.NamedTemporaryFile(delete=False).name`. -/
def mkTempFile : M FileId := fun w => (Except.ok w.nextId, pushFile w)

/-- `os.remove(f)`. -/
def removeFile (f : FileId) : M Unit := fun w =>
  (Except.ok (), { w with files := w.files.erase f,
                          events := w.events ++ [Event.fileRemove f] })

/-- `os.path.exists(f)`. -/
def fileExists (f : FileId) : M Bool := fun w =>
  (Except.ok (decide (f ∈ w.files)), w)

/-- `try: body except Exception: handler` — catches every exception. -/
def tryCatchAll {α : Type} (body : M α) (handler : PyErr → M α) : M α := fun w =>
  match body w with
  | (Except.ok a, w1) => (Except.ok a, w1)
  | (Except.error e, w1) => handler e w1

/-- `try: body except requests.exceptions.RequestException: handler` —
catches only request exceptions, re-raises everything else. -/
def tryCatchRequestExc {α : Type} (body : M α) (handler : String → M α) : M α := fun w =>
  match body w with
  | (Except.ok a, w1) => (Except.ok a, w1)
  | (Except.error (PyErr.requestError m), w1) => handler m w1
  | (Except.error e, w1) => (Except.error e, w1)

/-- `try: body finally: fin` — the finalizer runs on both exits and its own
exception (never raised by the finalizers of this program) would win. -/
def tryFinallyRun {α : Type} (body : M α) (fin : M Unit) : M α := fun w =>
  match body w with
  | (Except.ok a, w1) =>
      (match fin w1 with
       | (Except.ok _, w2) => (Except.ok a, w2)
       | (Except.error e2, w2) => (Except.error e2, w2))
  | (Except.error e, w1) =>
      (match fin w1 with
       | (Except.ok _, w2) => (Except.error e, w2)
       | (Except.error e2, w2) => (Except.error e2, w2))

/-- A decoded video (`VideoFileClip`): its duration, the frame captured at a
given instant (PNG-encoded and base64ed, as one opaque string), and whether
it has an audio track (`video.audio is not None`). -/
structure Video where
  duration : ℚ
  frameAt : Int → String
  hasAudio : Bool

/-- An HTTP response: status code and the streamed body, each chunk either
delivered or aborting the stream with a request exception. -/
structure HttpResp where
  status : Nat
  body : List (Except PyErr String)

/-- Outcomes of all external collaborators for one request. -/
structure Env where
  openClip : FileId → Except PyErr Video
  writeAudioOk : Bool
  audioRead : Except PyErr String
  tokenCount : Except PyErr Nat
  genText : Except PyErr String
  httpGet : Except PyErr HttpResp
  postStatus : Except PyErr Nat

/-- `video_to_frames(video_file, frame_interval)` (source lines 31-60):
coerces the interval with `float(...)`, opens the clip, truncates the
duration with `int(...)`, iterates `range(0, duration, frame_interval)`
capturing and encoding a frame at each step, and on any exception returns
the empty list. -/
def video_to_frames (env : Env) (video_file : FileId) (frame_interval : PyNum) :
    M (List String) :=
  tryCatchAll
    (do
      let fi := pyFloat frame_interval
      let video ← liftE (env.openClip video_file)
      let duration := pyIntOfRat video.duration
      let times ← liftE (pyRange 0 duration fi)
      return times.map video.frameAt)
    (fun _e => pure [])

/-- The sampling schedule of the `video_to_frames` loop (source line 48):
the instants `range(0, int(duration), float(frame_interval))` would iterate,
empty when that `range` call raises. -/
def sample_times (video : Video) (frame_interval : PyNum) : List Int :=
  match pyRange 0 (pyIntOfRat video.duration) (pyFloat frame_interval) with
  | Except.ok ts => ts
  | Except.error _ => []

/-- `video.audio.write_audiofile(audio_file, codec="libmp3lame")` (source
line 68): raises `AttributeError` when the clip has no audio track
(`video.audio` is `None`), raises on a transcoding error, succeeds
otherwise. -/
def write_audiofile (env : Env) (video : Video) : M Unit :=
  if video.hasAudio then
    if env.writeAudioOk then pure ()
    else M.raise (PyErr.ioError "error writing audio file")
  else M.raise (PyErr.attributeError "NoneType object has no attribute write_audiofile")

/-- `extract_audio(video_file)` (source lines 63-73): opens the clip,
creates a temp `.mp3` file, writes the audio track into it, and on any
exception returns `None`. -/
def extract_audio (env : Env) (video_file : FileId) : M (Option FileId) :=
  tryCatchAll
    (do
      let video ← liftE (env.openClip video_file)
      let audio_file ← mkTempFile
      write_audiofile env video
      return some audio_file)
    (fun _e => pure none)

/-- An extracted frame as an inline image request part. -/
def imagePart (frame : String) : ReqPart := ReqPart.inlineImage frame

/-- `summarize_video(video_file_path, prompt, frame_interval)` (source lines
76-116): extracts frames and audio; returns a fixed failure string when both
are empty/absent; otherwise assembles `contents` as the prompt, the frames
in order, then (audio present and readable) the audio part; calls
`count_tokens` then `generate_content` inside a `try` whose `except` turns
any error into a failure string and whose `finally` removes the audio file
if it exists. -/
def summarize_video (env : Env) (video_file_path : FileId) (prompt : String)
    (frame_interval : PyNum) : M String := do
  let frames ← video_to_frames env video_file_path frame_interval
  let audio_file ← extract_audio env video_file_path
  if frames.isEmpty && audio_file.isNone then
    return "Could not summarize video: No frames or audio."
  else
    let contents0 := ReqPart.text prompt :: frames.map imagePart
    let contents ←
      match audio_file with
      | some _a =>
          tryCatchAll
            (do
              let audio_data ← liftE env.audioRead
              return contents0 ++ [ReqPart.inlineAudio audio_data])
            (fun _e => pure contents0)
      | none => pure contents0
    tryFinallyRun
      (tryCatchAll
        (do
          emit (Event.countTokensCall contents)
          let _token_count ← liftE env.tokenCount
          emit (Event.generateCall contents)
          let summary_text ← liftE env.genText
          return summary_text)
        (fun e => pure ("Could not summarize video: Gemini API error: " ++ e.str)))
      (match audio_file with
       | some a => do
           let ex ← fileExists a
           if ex then removeFile a else pure ()
       | none => pure ())

/-- `response.raise_for_status()`: raises an `HTTPError` (a request
exception) for a 4xx/5xx status. -/
def raiseForStatus (r : HttpResp) : M Unit :=
  if 400 ≤ r.status then M.raise (PyErr.requestError "HTTPError") else pure ()

/-- The `for chunk in response.iter_content(...): f.write(chunk)` loop:
writes delivered chunks, re-raises the stream error of an aborted chunk. -/
def writeChunks (f : FileId) : List (Except PyErr String) → M Unit
  | [] => pure ()
  | Except.ok _c :: rest => writeChunks f rest
  | Except.error e :: _rest => M.raise e

/-- `download_video(video_url)` (source lines 181-195): fetches the URL,
raises for a bad status, creates the temp `.mp4` file, streams the body into
it, and catches only `requests.exceptions.RequestException`, returning
`None` on those. -/
def download_video (env : Env) (video_url : String) : M (Option FileId) :=
  tryCatchRequestExc
    (do
      let response ← liftE env.httpGet
      raiseForStatus response
      let temp_file ← mkTempFile
      writeChunks temp_file response.body
      return some temp_file)
    (fun _m => pure none)

/-- `send_reply(sender_id, message_text)` (source lines 198-210): posts the
message (a raised request error propagates); a non-200 status is only
logged. -/
def send_reply (env : Env) (message_text : String) : M Unit := do
  emit (Event.httpPost message_text)
  let _status ← liftE env.postStatus
  return ()

/-- `process_video_message(sender_id, video_url)` (source lines 213-227):
downloads the video; on `None` replies with an apology and returns;
otherwise summarizes and replies inside a `try` whose `finally` removes the
video file if it exists. -/
def process_video_message (env : Env) (video_url : String) : M Unit := do
  let video_file_path ← download_video env video_url
  match video_file_path with
  | none => send_reply env "Sorry, I couldn\x27t download the video."
  | some vid =>
      tryFinallyRun
        (do
          let prompt := "Summarize this video under 100 words"
          let summary ← summarize_video env vid prompt (PyNum.int 2)
          send_reply env summary)
        (do
          let ex ← fileExists vid
          if ex then removeFile vid else pure ())

/-! ### Run equations for the effect monad -/

theorem M.run_bind {α β : Type} (x : M α) (f : α → M β) (w : World) :
    (x >>= f) w =
      match x w with
      | (Except.ok a, w1) => f a w1
      | (Except.error e, w1) => (Except.error e, w1) := rfl

theorem M.run_pure {α : Type} (a : α) (w : World) :
    (pure a : M α) w = (Except.ok a, w) := rfl

theorem liftE_run {α : Type} (x : Except PyErr α) (w : World) :
    liftE x w = (x, w) := rfl

/-! ### The frame sampler never produces a frame

`frame_interval` is unconditionally coerced to a Python float, and
`range` with a float step raises `TypeError`, which the blanket `except`
turns into the empty list: every call returns `[]` and leaves the world
untouched. -/

theorem video_to_frames_run (env : Env) (f : FileId) (i : PyNum) (w : World) :
    video_to_frames env f i w = (Except.ok [], w) := by
  cases i with
  | int n =>
      cases h : env.openClip f with
      | ok v =>
          simp only [video_to_frames, tryCatchAll, M.run_bind, liftE_run, h,
            pyFloat, pyRange]
          rfl
      | error e =>
          simp only [video_to_frames, tryCatchAll, M.run_bind, liftE_run, h,
            pyFloat, pyRange]
          rfl
  | float q =>
      cases h : env.openClip f with
      | ok v =>
          simp only [video_to_frames, tryCatchAll, M.run_bind, liftE_run, h,
            pyFloat, pyRange]
          rfl
      | error e =>
          simp only [video_to_frames, tryCatchAll, M.run_bind, liftE_run, h,
            pyFloat, pyRange]
          rfl

/-- The sampling schedule is likewise always empty. -/
theorem sample_times_empty (v : Video) (i : PyNum) : sample_times v i = [] := by
  cases i <;> simp [sample_times, pyFloat, pyRange]

/-! ### Run shapes of the remaining stages -/

/-- Shape of one `extract_audio` run: `None` with no file when the clip
fails to open; otherwise the temp file is created first, and the result is
its id exactly when the track exists and transcodes. -/
theorem extract_audio_run (env : Env) (f : FileId) (w : World) :
    extract_audio env f w =
      match env.openClip f with
      | Except.error _ => (Except.ok none, w)
      | Except.ok v =>
          if v.hasAudio && env.writeAudioOk
          then (Except.ok (some w.nextId), pushFile w)
          else (Except.ok none, pushFile w) := by
  cases h : env.openClip f with
  | error e =>
      simp only [extract_audio, tryCatchAll, M.run_bind, liftE_run, h]
      rfl
  | ok v =>
      cases ha : v.hasAudio <;> cases hw : env.writeAudioOk <;>
        simp only [extract_audio, tryCatchAll, M.run_bind, liftE_run, h,
          write_audiofile, mkTempFile, ha, hw, Bool.false_and, Bool.true_and,
          Bool.and_false, Bool.and_true, if_true, if_false, M.raise,
          Bool.false_eq_true, ite_false, ite_true] <;> rfl

/-- The audio portion of the request `contents`: present exactly when the
audio file could be read back. -/
def audioTail (env : Env) : List ReqPart :=
  match env.audioRead with
  | Except.ok d => [ReqPart.inlineAudio d]
  | Except.error _ => []

/-- The model-endpoint calls made by `summarize_video` once content exists:
`count_tokens` always, `generate_content` only when counting succeeded. -/
def modelEvents (env : Env) (contents : List ReqPart) : List Event :=
  match env.tokenCount with
  | Except.error _ => [Event.countTokensCall contents]
  | Except.ok _ => [Event.countTokensCall contents, Event.generateCall contents]

/-- The text `summarize_video` produces from the model stage: the model
text on success, the catch-all failure string on any model error. -/
def modelOutcome (env : Env) : String :=
  match env.tokenCount with
  | Except.error e => "Could not summarize video: Gemini API error: " ++ e.str
  | Except.ok _ =>
      match env.genText with
      | Except.error e => "Could not summarize video: Gemini API error: " ++ e.str
      | Except.ok s => s

/-- Shape of one `summarize_video` run.  Frames are always empty (see
`video_to_frames_run`), so: when the clip cannot be opened, or has no usable
audio, the fixed no-content string comes back (leaving the leaked temp file
of a failed `extract_audio` behind); when audio was extracted, the request
is `prompt` followed by the audio part (when readable), the model endpoint
is called, and the audio temp file is removed before returning. -/
theorem summarize_video_run (env : Env) (f : FileId) (p : String) (i : PyNum)
    (w : World) :
    summarize_video env f p i w =
      match env.openClip f with
      | Except.error _ =>
          (Except.ok "Could not summarize video: No frames or audio.", w)
      | Except.ok v =>
          if v.hasAudio && env.writeAudioOk then
            (Except.ok (modelOutcome env),
             ⟨(w.files ++ [w.nextId]).erase w.nextId, w.nextId + 1,
              w.events ++ [Event.fileCreate w.nextId] ++
                modelEvents env (ReqPart.text p :: audioTail env) ++
                [Event.fileRemove w.nextId]⟩)
          else
            (Except.ok "Could not summarize video: No frames or audio.",
             pushFile w) := by
  cases h : env.openClip f with
  | error e =>
      simp only [summarize_video, M.run_bind, video_to_frames_run,
        extract_audio_run, h]
      rfl
  | ok v =>
      cases ha : v.hasAudio with
      | false =>
          simp only [summarize_video, M.run_bind, video_to_frames_run,
            extract_audio_run, h, ha, Bool.false_and, if_false,
            Bool.false_eq_true, ite_false]
          rfl
      | true =>
          cases hw : env.writeAudioOk with
          | false =>
              simp only [summarize_video, M.run_bind, video_to_frames_run,
                extract_audio_run, h, ha, hw, Bool.and_false, if_false,
                Bool.false_eq_true, ite_false]
              rfl
          | true =>
              cases hr : env.audioRead with
              | error d =>
                  cases ht : env.tokenCount with
                  | error n =>
                      simp [summarize_video, M.run_bind, video_to_frames_run,
                        extract_audio_run, h, ha, hw, hr, ht, audioTail,
                        modelEvents, modelOutcome, tryCatchAll, tryFinallyRun,
                        liftE_run, emit, fileExists, removeFile, pushFile,
                        Pure.pure, M.pure, imagePart, List.append_assoc]
                  | ok n =>
                      cases hg : env.genText with
                      | error s =>
                          simp [summarize_video, M.run_bind, video_to_frames_run,
                            extract_audio_run, h, ha, hw, hr, ht, hg, audioTail,
                            modelEvents, modelOutcome, tryCatchAll, tryFinallyRun,
                            liftE_run, emit, fileExists, removeFile, pushFile,
                            Pure.pure, M.pure, imagePart, List.append_assoc]
                      | ok s =>
                          simp [summarize_video, M.run_bind, video_to_frames_run,
                            extract_audio_run, h, ha, hw, hr, ht, hg, audioTail,
                            modelEvents, modelOutcome, tryCatchAll, tryFinallyRun,
                            liftE_run, emit, fileExists, removeFile, pushFile,
                            Pure.pure, M.pure, imagePart, List.append_assoc]
              | ok d =>
                  cases ht : env.tokenCount with
                  | error n =>
                      simp [summarize_video, M.run_bind, video_to_frames_run,
                        extract_audio_run, h, ha, hw, hr, ht, audioTail,
                        modelEvents, modelOutcome, tryCatchAll, tryFinallyRun,
                        liftE_run, emit, fileExists, removeFile, pushFile,
                        Pure.pure, M.pure, imagePart, List.append_assoc]
                  | ok n =>
                      cases hg : env.genText with
                      | error s =>
                          simp [summarize_video, M.run_bind, video_to_frames_run,
                            extract_audio_run, h, ha, hw, hr, ht, hg, audioTail,
                            modelEvents, modelOutcome, tryCatchAll, tryFinallyRun,
                            liftE_run, emit, fileExists, removeFile, pushFile,
                            Pure.pure, M.pure, imagePart, List.append_assoc]
                      | ok s =>
                          simp [summarize_video, M.run_bind, video_to_frames_run,
                            extract_audio_run, h, ha, hw, hr, ht, hg, audioTail,
                            modelEvents, modelOutcome, tryCatchAll, tryFinallyRun,
                            liftE_run, emit, fileExists, removeFile, pushFile,
                            Pure.pure, M.pure, imagePart, List.append_assoc]

/-- The first stream error among the body chunks, if any. -/
def firstChunkErr : List (Except PyErr String) → Option PyErr
  | [] => none
  | Except.ok _ :: rest => firstChunkErr rest
  | Except.error e :: _rest => some e

theorem writeChunks_run (f : FileId) (l : List (Except PyErr String)) (w : World) :
    writeChunks f l w =
      (match firstChunkErr l with
       | none => Except.ok ()
       | some e => Except.error e, w) := by
  induction l with
  | nil => rfl
  | cons c rest ih =>
      cases c with
      | ok s =>
          simp only [writeChunks, firstChunkErr]
          exact ih
      | error e => rfl

/-- Shape of one `download_video` run: `None` and no file when the request
or the status check fails before streaming; the temp file is created before
the body is consumed, so a stream error returns `None` with the partial file
already on disk; a non-request error propagates. -/
theorem download_video_run (env : Env) (url : String) (w : World) :
    download_video env url w =
      match env.httpGet with
      | Except.error (PyErr.requestError _) => (Except.ok none, w)
      | Except.error e => (Except.error e, w)
      | Except.ok r =>
          if 400 ≤ r.status then (Except.ok none, w)
          else
            match firstChunkErr r.body with
            | none => (Except.ok (some w.nextId), pushFile w)
            | some (PyErr.requestError _) => (Except.ok none, pushFile w)
            | some e => (Except.error e, pushFile w) := by
  cases h : env.httpGet with
  | error e =>
      cases e <;>
        simp only [download_video, tryCatchRequestExc, M.run_bind, liftE_run, h] <;>
        rfl
  | ok r =>
      by_cases hs : 400 ≤ r.status
      · simp only [download_video, tryCatchRequestExc, M.run_bind, liftE_run, h,
          raiseForStatus, if_pos hs, M.raise]
        rfl
      · cases hc : firstChunkErr r.body with
        | none =>
            simp only [download_video, tryCatchRequestExc, M.run_bind, liftE_run,
              h, raiseForStatus, if_neg hs, mkTempFile, writeChunks_run, hc,
              Pure.pure, M.pure]
        | some e =>
            cases e <;>
              simp only [download_video, tryCatchRequestExc, M.run_bind,
                liftE_run, h, raiseForStatus, if_neg hs, mkTempFile,
                writeChunks_run, hc, Pure.pure, M.pure]

/-- Shape of one `send_reply` run: the post is attempted exactly once and a
raised request error propagates to the caller. -/
theorem send_reply_run (env : Env) (t : String) (w : World) :
    send_reply env t w =
      (match env.postStatus with
       | Except.ok _ => Except.ok ()
       | Except.error e => Except.error e,
       { w with events := w.events ++ [Event.httpPost t] }) := by
  cases h : env.postStatus with
  | error e =>
      simp only [send_reply, M.run_bind, emit, liftE_run, h]
  | ok n =>
      simp only [send_reply, M.run_bind, emit, liftE_run, h, Pure.pure, M.pure]

/-! ### Predicates on the event trace -/

/-- Is this event a call to the generative-model endpoint? -/
def isModelCall : Event → Bool
  | Event.countTokensCall _ => true
  | Event.generateCall _ => true
  | _ => false

/-- Is this event the removal of file `v`? -/
def isRemoveOf (v : FileId) : Event → Bool
  | Event.fileRemove f => f == v
  | _ => false

/-- Is this event the token-count call? -/
def isCountCall : Event → Bool
  | Event.countTokensCall _ => true
  | _ => false

/-- Is this event the generation call? -/
def isGenCall : Event → Bool
  | Event.generateCall _ => true
  | _ => false

theorem countP_isRemoveOf_modelEvents (v : FileId) (env : Env)
    (c : List ReqPart) : (modelEvents env c).countP (isRemoveOf v) = 0 := by
  cases h : env.tokenCount <;> simp [modelEvents, h, isRemoveOf]

theorem any_isModelCall_modelEvents (env : Env) (c : List ReqPart) :
    (modelEvents env c).any isModelCall = true := by
  cases h : env.tokenCount <;> simp [modelEvents, h, isModelCall]

/-! ### Concrete environments for witnesses and counterexamples -/

/-- A ten-second clip with an audio track. -/
def vid10 : Video := { duration := 10, frameAt := fun _ => "FRAME", hasAudio := true }

/-- The all-success environment: the download serves one chunk, the clip
opens, audio transcodes and reads back, and the model answers. -/
def envBase : Env where
  openClip := fun _ => Except.ok vid10
  writeAudioOk := true
  audioRead := Except.ok "AUDIO"
  tokenCount := Except.ok 5
  genText := Except.ok "a short summary"
  httpGet := Except.ok { status := 200, body := [Except.ok "bytes"] }
  postStatus := Except.ok 200

/-! ### C1 -/

/-- C1: the claim says `video_to_frames` returns `floor(D / i)` frames at
strictly increasing multiples of `i` below `D`.  The code cannot: the
interval is coerced to a Python float and `range` rejects a float step with
`TypeError`, which the blanket `except` turns into `[]`.  At the production
call site interval `2` on a 10-second clip, the claim demands the five
samples `0, 2, 4, 6, 8`; the code produces no frames and an empty sampling
schedule. -/
theorem C1_frame_sampler_code_bug :
    video_to_frames envBase 0 (PyNum.int 2) World.init = (Except.ok [], World.init)
    ∧ sample_times vid10 (PyNum.int 2) = []
    ∧ sample_times vid10 (PyNum.int 2) ≠ [0, 2, 4, 6, 8] := by
  refine ⟨video_to_frames_run envBase 0 (PyNum.int 2) World.init,
    sample_times_empty vid10 (PyNum.int 2), ?_⟩
  rw [sample_times_empty]
  decide

/-! ### C9 -/

/-- C9: the sampling schedule is a function of the video duration and the
interval alone, so two runs over the same content agree on their timestamp
lists, and the frame output of `video_to_frames` does not depend on any
state left by an earlier run. -/
theorem C9_sampling_deterministic (v1 v2 : Video) (i : PyNum) (env : Env)
    (f : FileId) (w w2 : World) (hd : v1.duration = v2.duration) :
    sample_times v1 i = sample_times v2 i ∧
    (video_to_frames env f i w).1 = (video_to_frames env f i w2).1 := by
  constructor
  · rw [sample_times_empty, sample_times_empty]
  · rw [video_to_frames_run, video_to_frames_run]

/-- A second ten-second clip that differs from `vid10` in everything but
its duration. -/
def vid10b : Video := { duration := 10, frameAt := fun _ => "OTHER", hasAudio := false }

/-- Witness for C9 at two clips sharing a duration but nothing else. -/
theorem C9_sampling_deterministic_witness :
    vid10.duration = vid10b.duration ∧
    (sample_times vid10 (PyNum.int 2) = sample_times vid10b (PyNum.int 2) ∧
      (video_to_frames envBase 0 (PyNum.int 2) World.init).1 =
        (video_to_frames envBase 0 (PyNum.int 2) (pushFile World.init)).1) :=
  ⟨rfl, C9_sampling_deterministic vid10 vid10b
    (PyNum.int 2) envBase 0 World.init (pushFile World.init) rfl⟩

/-! ### C3 -/

/-- C3: `summarize_video` touches the model endpoint exactly when at least
one of the extracted frame list and the extracted audio artifact is
non-empty/present; when both are empty/absent it returns the fixed
no-content failure string without any model call, and with the state the
extraction phase left behind. -/
theorem C3_model_call_iff_content (env : Env) (f : FileId) (p : String)
    (i : PyNum) (w w1 w2 : World) (fs : List String) (ao : Option FileId)
    (h1 : video_to_frames env f i w = (Except.ok fs, w1))
    (h2 : extract_audio env f w1 = (Except.ok ao, w2)) :
    ((((summarize_video env f p i w).2.events.drop w.events.length).any
        isModelCall = true) ↔ ¬(fs = [] ∧ ao = none)) ∧
    (fs = [] → ao = none →
      summarize_video env f p i w =
        (Except.ok "Could not summarize video: No frames or audio.", w2)) := by
  rw [video_to_frames_run] at h1
  injection h1 with h1a h1b
  injection h1a with hfs
  subst hfs
  subst h1b
  rw [extract_audio_run] at h2
  rcases ho : env.openClip f with e | v
  · rw [ho] at h2
    simp only [Prod.mk.injEq, Except.ok.injEq] at h2
    obtain ⟨hao, hw2⟩ := h2
    subst hao
    subst hw2
    rw [summarize_video_run, ho]
    constructor
    · simp [List.drop_length]
    · intro _ _
      rfl
  · rw [ho] at h2
    by_cases hcond : (v.hasAudio && env.writeAudioOk) = true
    · simp only [hcond, if_true, Prod.mk.injEq, Except.ok.injEq] at h2
      obtain ⟨hao, hw2⟩ := h2
      subst hao
      subst hw2
      rw [summarize_video_run, ho]
      constructor
      · simp [hcond, List.append_assoc, List.drop_left, List.any_append,
          any_isModelCall_modelEvents]
      · intro _ hno
        exact absurd hno (by simp)
    · simp only [hcond, if_false, Prod.mk.injEq, Except.ok.injEq,
        Bool.false_eq_true, ite_false] at h2
      obtain ⟨hao, hw2⟩ := h2
      subst hao
      subst hw2
      rw [summarize_video_run, ho]
      constructor
      · simp [hcond, pushFile, List.append_assoc, List.drop_left, isModelCall]
      · intro _ _
        simp [hcond]

/-- An environment whose video cannot be decoded at all: no frames, no
audio. -/
def env3w : Env :=
  { envBase with openClip := fun _ => Except.error (PyErr.ioError "corrupt video") }

/-- Witness for C3: with an undecodable clip both extractions are empty, no
model call happens, and the no-content string is returned. -/
theorem C3_model_call_iff_content_witness :
    ((((summarize_video env3w 0 "p" (PyNum.int 2) World.init).2.events.drop
        World.init.events.length).any isModelCall = true) ↔
      ¬(([] : List String) = [] ∧ (none : Option FileId) = none)) ∧
    (([] : List String) = [] → (none : Option FileId) = none →
      summarize_video env3w 0 "p" (PyNum.int 2) World.init =
        (Except.ok "Could not summarize video: No frames or audio.",
         World.init)) :=
  C3_model_call_iff_content env3w 0 "p" (PyNum.int 2) World.init World.init
    World.init [] none rfl rfl

/-! ### C4 -/

/-- C4: when the model stage has content to work on and the model
invocation errors — at the token-count step or at the generation step —
`summarize_video` returns normally with the descriptive failure string
built from the exception; no model-stage exception escapes. -/
theorem C4_model_error_to_string (env : Env) (f : FileId) (p : String)
    (i : PyNum) (w w2 : World) (a : FileId) (e : PyErr)
    (h2 : extract_audio env f w = (Except.ok (some a), w2))
    (he : env.tokenCount = Except.error e ∨
          ((∃ n, env.tokenCount = Except.ok n) ∧ env.genText = Except.error e)) :
    (summarize_video env f p i w).1 =
      Except.ok ("Could not summarize video: Gemini API error: " ++ e.str) := by
  rw [extract_audio_run] at h2
  rcases ho : env.openClip f with e2 | v
  · rw [ho] at h2
    simp at h2
  · rw [ho] at h2
    by_cases hcond : (v.hasAudio && env.writeAudioOk) = true
    · rw [summarize_video_run, ho]
      rcases he with ht | ⟨⟨n, ht⟩, hg⟩
      · simp [hcond, modelOutcome, ht]
      · simp [hcond, modelOutcome, ht, hg]
    · simp [hcond] at h2

/-- An environment where generation fails with a quota error. -/
def env4w : Env :=
  { envBase with genText := Except.error (PyErr.apiError "quota exceeded") }

/-- Witness for C4: a failed generation call becomes the descriptive
failure string. -/
theorem C4_model_error_to_string_witness :
    (summarize_video env4w 0 "p" (PyNum.int 2) World.init).1 =
      Except.ok ("Could not summarize video: Gemini API error: " ++
        (PyErr.apiError "quota exceeded").str) :=
  C4_model_error_to_string env4w 0 "p" (PyNum.int 2) World.init
    (pushFile World.init) 0 (PyErr.apiError "quota exceeded") rfl
    (Or.inr ⟨⟨5, rfl⟩, rfl⟩)

/-! ### C7 -/

/-- C7: whenever `extract_audio` produced an audio artifact, that file is
removed exactly once by `summarize_video` itself — inside the model stage,
before the function returns and before any outer cleanup — on every path,
model failures included (the environment is unconstrained). -/
theorem C7_audio_deleted_before_return (env : Env) (f : FileId) (p : String)
    (i : PyNum) (w w2 : World) (a : FileId)
    (h2 : extract_audio env f w = (Except.ok (some a), w2))
    (hfresh : a ∉ w.files) :
    a ∉ (summarize_video env f p i w).2.files ∧
    ((summarize_video env f p i w).2.events.drop w.events.length).countP
      (isRemoveOf a) = 1 := by
  rw [extract_audio_run] at h2
  rcases ho : env.openClip f with e | v
  · rw [ho] at h2
    simp at h2
  · rw [ho] at h2
    by_cases hcond : (v.hasAudio && env.writeAudioOk) = true
    · simp only [hcond, if_true, Prod.mk.injEq, Except.ok.injEq,
        Option.some.injEq] at h2
      obtain ⟨ha, hw2⟩ := h2
      subst ha
      have herase : (w.files ++ [w.nextId]).erase w.nextId = w.files := by
        rw [List.erase_append_right _ hfresh]
        simp
      rw [summarize_video_run, ho]
      constructor
      · simp [hcond, herase, hfresh]
      · simp [hcond, List.append_assoc, List.drop_left, List.countP_append,
          List.countP_cons, countP_isRemoveOf_modelEvents, isRemoveOf]
    · simp [hcond] at h2

/-- Witness for C7 in the all-success environment: the audio temp file
(id 0) is gone when `summarize_video` returns and was removed exactly
once. -/
theorem C7_audio_deleted_before_return_witness :
    0 ∉ (summarize_video envBase 0 "p" (PyNum.int 2) World.init).2.files ∧
    ((summarize_video envBase 0 "p" (PyNum.int 2)
        World.init).2.events.drop World.init.events.length).countP
      (isRemoveOf 0) = 1 :=
  C7_audio_deleted_before_return envBase 0 "p" (PyNum.int 2) World.init
    (pushFile World.init) 0 rfl (by decide)

/-! ### C10 -/

/-- C10: if the extracted audio file cannot be read back, `summarize_video`
does not abort: it returns normally, every model-endpoint call carries only
the instruction and the frame parts (no audio part), and the audio file is
still deleted exactly once before returning. -/
theorem C10_audio_read_failure_degrades (env : Env) (f : FileId) (p : String)
    (i : PyNum) (w w1 w2 : World) (fs : List String) (a : FileId) (e : PyErr)
    (h1 : video_to_frames env f i w = (Except.ok fs, w1))
    (h2 : extract_audio env f w1 = (Except.ok (some a), w2))
    (hread : env.audioRead = Except.error e)
    (hfresh : a ∉ w.files) :
    (∃ s, (summarize_video env f p i w).1 = Except.ok s) ∧
    (∀ c, Event.countTokensCall c ∈
        (summarize_video env f p i w).2.events.drop w.events.length →
      c = ReqPart.text p :: fs.map imagePart) ∧
    (∀ c, Event.generateCall c ∈
        (summarize_video env f p i w).2.events.drop w.events.length →
      c = ReqPart.text p :: fs.map imagePart) ∧
    a ∉ (summarize_video env f p i w).2.files ∧
    ((summarize_video env f p i w).2.events.drop w.events.length).countP
      (isRemoveOf a) = 1 := by
  rw [video_to_frames_run] at h1
  injection h1 with h1a h1b
  injection h1a with hfs
  subst hfs
  subst h1b
  rw [extract_audio_run] at h2
  rcases ho : env.openClip f with e2 | v
  · rw [ho] at h2
    simp at h2
  · rw [ho] at h2
    by_cases hcond : (v.hasAudio && env.writeAudioOk) = true
    · simp only [hcond, if_true, Prod.mk.injEq, Except.ok.injEq,
        Option.some.injEq] at h2
      obtain ⟨ha, hw2⟩ := h2
      subst ha
      have herase : (w.files ++ [w.nextId]).erase w.nextId = w.files := by
        rw [List.erase_append_right _ hfresh]
        simp
      rw [summarize_video_run, ho]
      cases ht : env.tokenCount with
      | error et =>
          simp [hcond, herase, hfresh, modelEvents, ht, audioTail, hread,
            List.append_assoc, List.drop_left, List.countP_append,
            List.countP_cons, isRemoveOf]
      | ok nt =>
          simp [hcond, herase, hfresh, modelEvents, ht, audioTail, hread,
            List.append_assoc, List.drop_left, List.countP_append,
            List.countP_cons, isRemoveOf]
    · simp [hcond] at h2

/-- An environment where the extracted audio file cannot be read back. -/
def env10w : Env :=
  { envBase with audioRead := Except.error (PyErr.ioError "unreadable audio") }

/-- Witness for C10: with an unreadable audio file the summary still comes
back, the request carries the instruction alone, and the audio temp file is
removed. -/
theorem C10_audio_read_failure_degrades_witness :
    (∃ s, (summarize_video env10w 0 "p" (PyNum.int 2) World.init).1 =
      Except.ok s) ∧
    (∀ c, Event.countTokensCall c ∈
        (summarize_video env10w 0 "p" (PyNum.int 2)
          World.init).2.events.drop World.init.events.length →
      c = ReqPart.text "p" :: ([] : List String).map imagePart) ∧
    (∀ c, Event.generateCall c ∈
        (summarize_video env10w 0 "p" (PyNum.int 2)
          World.init).2.events.drop World.init.events.length →
      c = ReqPart.text "p" :: ([] : List String).map imagePart) ∧
    0 ∉ (summarize_video env10w 0 "p" (PyNum.int 2) World.init).2.files ∧
    ((summarize_video env10w 0 "p" (PyNum.int 2)
        World.init).2.events.drop World.init.events.length).countP
      (isRemoveOf 0) = 1 :=
  C10_audio_read_failure_degrades env10w 0 "p" (PyNum.int 2) World.init
    World.init (pushFile World.init) [] 0 (PyErr.ioError "unreadable audio")
    rfl rfl rfl (by decide)

/-! ### C5 -/

/-- A successful initial response whose body stream dies after the first
chunk. -/
def resp5 : HttpResp :=
  { status := 200,
    body := [Except.ok "chunk1",
             Except.error (PyErr.requestError "connection reset mid-stream")] }

/-- An environment whose download stream fails mid-body. -/
def env5cex : Env := { envBase with httpGet := Except.ok resp5 }

/-- Counterexample to C5 as stated: a network error during body streaming
is a failure (`download_video` returns `None`), yet the temporary file —
created before the body was consumed — is left behind on disk. -/
theorem C5_counterexample :
    (download_video env5cex "u" World.init).1 = Except.ok none ∧
    (download_video env5cex "u" World.init).2.files = [0] :=
  ⟨rfl, rfl⟩

/-- C5 amended: failures detected before the body is consumed (request
error on connect, 4xx/5xx status) return `None` and create no file; success
creates exactly one file; but a request error during body streaming returns
`None` with the partially written temporary file left behind. -/
theorem C5_download_amended (env : Env) (url : String) (w : World) :
    (∀ m, env.httpGet = Except.error (PyErr.requestError m) →
      download_video env url w = (Except.ok none, w)) ∧
    (∀ r, env.httpGet = Except.ok r → 400 ≤ r.status →
      download_video env url w = (Except.ok none, w)) ∧
    (∀ r, env.httpGet = Except.ok r → r.status < 400 →
      firstChunkErr r.body = none →
      download_video env url w = (Except.ok (some w.nextId), pushFile w)) ∧
    (∀ r m, env.httpGet = Except.ok r → r.status < 400 →
      firstChunkErr r.body = some (PyErr.requestError m) →
      download_video env url w = (Except.ok none, pushFile w)) := by
  refine ⟨?_, ?_, ?_, ?_⟩
  · intro m hm
    rw [download_video_run, hm]
  · intro r hr hs
    rw [download_video_run, hr]
    simp [hs]
  · intro r hr hs hc
    have hns : ¬ 400 ≤ r.status := by omega
    rw [download_video_run, hr]
    simp [hns, hc]
  · intro r m hr hs hc
    have hns : ¬ 400 ≤ r.status := by omega
    rw [download_video_run, hr]
    simp [hns, hc]

/-- Witness for the amended C5 at the mid-stream failure environment. -/
theorem C5_download_amended_witness :
    download_video env5cex "u" World.init =
      (Except.ok none, pushFile World.init) :=
  (C5_download_amended env5cex "u" World.init).2.2.2 resp5
    "connection reset mid-stream" rfl (by decide) rfl

/-! ### C6 -/

/-- An environment whose clip decodes but has no audio track. -/
def env6cex : Env := { envBase with openClip := fun _ => Except.ok vid10b }

/-- Counterexample to C6 as stated: on a source without an audio track
`extract_audio` returns `None` as claimed, but the temporary `.mp3` file it
created before attempting the write (file 0) is left on disk. -/
theorem C6_counterexample :
    extract_audio env6cex 0 World.init = (Except.ok none, pushFile World.init) ∧
    (pushFile World.init).files = [0] :=
  ⟨rfl, rfl⟩

/-- C6 amended: when the clip cannot be opened, `extract_audio` returns
`None` with no file created; when the clip opens but the track is missing
or transcoding fails, it returns `None` with the already-created temporary
audio file leaked; on success it returns the one file it created. -/
theorem C6_extract_audio_amended (env : Env) (f : FileId) (w : World) :
    (∀ e, env.openClip f = Except.error e →
      extract_audio env f w = (Except.ok none, w)) ∧
    (∀ v, env.openClip f = Except.ok v →
      (v.hasAudio = false ∨ env.writeAudioOk = false) →
      extract_audio env f w = (Except.ok none, pushFile w)) ∧
    (∀ v, env.openClip f = Except.ok v → v.hasAudio = true →
      env.writeAudioOk = true →
      extract_audio env f w = (Except.ok (some w.nextId), pushFile w)) := by
  refine ⟨?_, ?_, ?_⟩
  · intro e he
    rw [extract_audio_run, he]
  · intro v hv hor
    rw [extract_audio_run, hv]
    rcases hor with h | h <;> simp [h]
  · intro v hv ha hw
    rw [extract_audio_run, hv]
    simp [ha, hw]

/-- Witness for the amended C6 at the no-audio-track environment. -/
theorem C6_extract_audio_amended_witness :
    extract_audio env6cex 0 World.init =
      (Except.ok none, pushFile World.init) :=
  (C6_extract_audio_amended env6cex 0 World.init).2.1 vid10b rfl (Or.inl rfl)

/-! ### C8 -/

/-- An environment where the audio artifact exists but reading it back
fails. -/
def env8a : Env :=
  { envBase with audioRead := Except.error (PyErr.ioError "read failed") }

/-- An environment where the token-count call fails. -/
def env8b : Env :=
  { envBase with tokenCount := Except.error (PyErr.apiError "count failed") }

/-- Counterexample to C8 as stated.  First run: the audio artifact exists
(file 0 was extracted) yet the generation request carries no audio part —
refuting "audio part if and only if an audio artifact is present".  Second
run: the artifact exists but the token-count call fails, and no generation
request is submitted at all — refuting "the request is submitted once". -/
theorem C8_counterexample :
    (extract_audio env8a 0 World.init).1 = Except.ok (some 0) ∧
    (summarize_video env8a 0 "p" (PyNum.int 2) World.init).2.events =
      [Event.fileCreate 0, Event.countTokensCall [ReqPart.text "p"],
       Event.generateCall [ReqPart.text "p"], Event.fileRemove 0] ∧
    (extract_audio env8b 0 World.init).1 = Except.ok (some 0) ∧
    (summarize_video env8b 0 "p" (PyNum.int 2) World.init).2.events =
      [Event.fileCreate 0,
       Event.countTokensCall [ReqPart.text "p", ReqPart.inlineAudio "AUDIO"],
       Event.fileRemove 0] :=
  ⟨rfl, rfl, rfl, rfl⟩

/-- C8 amended: once an audio artifact exists the token-count request is
assembled and submitted exactly once, generation is submitted exactly once
when token counting succeeds and not at all when it fails, and every
submitted request is exactly the instruction, the frames in order, then the
audio part exactly when the artifact could be read back. -/
theorem C8_request_assembly_amended (env : Env) (f : FileId) (p : String)
    (i : PyNum) (w w1 w2 : World) (fs : List String) (a : FileId)
    (h1 : video_to_frames env f i w = (Except.ok fs, w1))
    (h2 : extract_audio env f w1 = (Except.ok (some a), w2)) :
    ((summarize_video env f p i w).2.events.drop w.events.length).countP
        isCountCall = 1 ∧
    ((summarize_video env f p i w).2.events.drop w.events.length).countP
        isGenCall =
      (match env.tokenCount with
       | Except.ok _ => 1
       | Except.error _ => 0) ∧
    (∀ c, Event.countTokensCall c ∈
        (summarize_video env f p i w).2.events.drop w.events.length →
      c = ReqPart.text p :: fs.map imagePart ++ audioTail env) ∧
    (∀ c, Event.generateCall c ∈
        (summarize_video env f p i w).2.events.drop w.events.length →
      c = ReqPart.text p :: fs.map imagePart ++ audioTail env) := by
  rw [video_to_frames_run] at h1
  injection h1 with h1a h1b
  injection h1a with hfs
  subst hfs
  subst h1b
  rw [extract_audio_run] at h2
  rcases ho : env.openClip f with e2 | v
  · rw [ho] at h2
    simp at h2
  · rw [ho] at h2
    by_cases hcond : (v.hasAudio && env.writeAudioOk) = true
    · rw [summarize_video_run, ho]
      cases ht : env.tokenCount with
      | error et =>
          simp [hcond, modelEvents, ht, List.append_assoc, List.drop_left,
            List.countP_append, List.countP_cons, isCountCall, isGenCall]
      | ok nt =>
          simp [hcond, modelEvents, ht, List.append_assoc, List.drop_left,
            List.countP_append, List.countP_cons, isCountCall, isGenCall]
    · simp [hcond] at h2

/-- Witness for the amended C8 in the all-success environment. -/
theorem C8_request_assembly_amended_witness :
    ((summarize_video envBase 0 "p" (PyNum.int 2)
        World.init).2.events.drop World.init.events.length).countP
      isCountCall = 1 ∧
    ((summarize_video envBase 0 "p" (PyNum.int 2)
        World.init).2.events.drop World.init.events.length).countP
      isGenCall =
      (match envBase.tokenCount with
       | Except.ok _ => 1
       | Except.error _ => 0) ∧
    (∀ c, Event.countTokensCall c ∈
        (summarize_video envBase 0 "p" (PyNum.int 2)
          World.init).2.events.drop World.init.events.length →
      c = ReqPart.text "p" :: ([] : List String).map imagePart ++
        audioTail envBase) ∧
    (∀ c, Event.generateCall c ∈
        (summarize_video envBase 0 "p" (PyNum.int 2)
          World.init).2.events.drop World.init.events.length →
      c = ReqPart.text "p" :: ([] : List String).map imagePart ++
        audioTail envBase) :=
  C8_request_assembly_amended envBase 0 "p" (PyNum.int 2) World.init
    World.init (pushFile World.init) [] 0 rfl rfl

/-- Last element of a trace that ends in an explicit suffix. -/
theorem getLast?_cons_append_event (x : Event) (l1 l2 : List Event) :
    (x :: (l1 ++ l2)).getLast? = l2.getLast?.or (x :: l1).getLast? := by
  rw [← List.cons_append, List.getLast?_append]

/-! ### C2 -/

/-- C2: on every run of `process_video_message` whose download produced a
video file — over an unconstrained environment, so including clips that do
not decode, model calls that fail, and replies whose send raises — the
video temp file is gone at exit, its removal happened exactly once, and
that removal is the very last effect, after the summarization stage
returned; even the paths that re-raise (a failing reply post) delete the
file first. -/
theorem C2_video_cleanup (env : Env) (url : String) (vid : FileId)
    (hdl : (download_video env url World.init).1 = Except.ok (some vid)) :
    vid ∉ (process_video_message env url World.init).2.files ∧
    (process_video_message env url World.init).2.events.countP
      (isRemoveOf vid) = 1 ∧
    (process_video_message env url World.init).2.events.getLast? =
      some (Event.fileRemove vid) := by
  rcases hg : env.httpGet with e | r
  · cases e <;> simp [download_video_run, hg] at hdl
  · by_cases hs : 400 ≤ r.status
    · simp [download_video_run, hg, hs] at hdl
    · rcases hc : firstChunkErr r.body with _ | e
      · simp [download_video_run, hg, hs, hc, World.init] at hdl
        subst hdl
        have hdl2 : download_video env url ⟨[], 0, []⟩ =
            (Except.ok (some 0), ⟨[0], 1, [Event.fileCreate 0]⟩) := by
          simp [download_video_run, hg, hs, hc, World.init, pushFile]
        rcases ho : env.openClip 0 with e2 | v
        · rcases hp : env.postStatus with pe | pn <;>
            simp [process_video_message, M.run_bind, hdl2, tryFinallyRun,
              summarize_video_run, ho, send_reply_run, hp, fileExists,
              removeFile, emit, pushFile, World.init, List.countP_append,
              List.countP_cons, countP_isRemoveOf_modelEvents, isRemoveOf,
              List.getLast?_concat, Pure.pure, M.pure,
              getLast?_cons_append_event, List.getLast?_cons_cons,
              Option.or_some, List.erase_cons_head, List.erase_cons_tail]
        · by_cases hcond : (v.hasAudio && env.writeAudioOk) = true <;>
          rcases hp : env.postStatus with pe | pn <;>
            simp [process_video_message, M.run_bind, hdl2, tryFinallyRun,
              summarize_video_run, ho, hcond, send_reply_run, hp, fileExists,
              removeFile, emit, pushFile, World.init, List.countP_append,
              List.countP_cons, countP_isRemoveOf_modelEvents, isRemoveOf,
              List.getLast?_concat, Pure.pure, M.pure,
              getLast?_cons_append_event, List.getLast?_cons_cons,
              Option.or_some, List.erase_cons_head, List.erase_cons_tail]
      · cases e <;> simp [download_video_run, hg, hs, hc] at hdl

/-- Witness for C2 in the all-success environment: the downloaded file
(id 0) is removed exactly once, as the final effect of the run. -/
theorem C2_video_cleanup_witness :
    0 ∉ (process_video_message envBase "u" World.init).2.files ∧
    (process_video_message envBase "u" World.init).2.events.countP
      (isRemoveOf 0) = 1 ∧
    (process_video_message envBase "u" World.init).2.events.getLast? =
      some (Event.fileRemove 0) :=
  C2_video_cleanup envBase "u" 0 rfl
